import Mathlib

/-!
Verification of the AIO Weather Repeater control loop
(src/bundle_9.0.0/code.py) via a shallow embedding.

Modelling conventions:
- Python floats are modelled as rationals (ℚ); none of the verified
  properties depends on binary floating-point rounding.
- The decoded JSON observation (`weather_data`) is modelled as a record
  `Observation` with structural equality, matching the inbound payload
  schema; Python dict `!=` is structural.
- Side effects (sleeps, LED/pixel writes, publishes, reconnect attempts,
  log prints, `supervisor.reload()`) are recorded as an event trace
  (`List Event`).  A step that reaches `supervisor.reload()` never
  returns; it is modelled by returning `none` for the successor state.
- External outcomes (whether `aio.loop`, `aio.connect`, `aio.publish`,
  `aio.reconnect` succeed, which message the broker delivers, the
  monotonic clock) are supplied by an environment record `Env`.
-/

/-- Python-style mod for rationals: result has the sign of the divisor,
matching CPython float `%` with a positive divisor. -/
def pymod (a b : ℚ) : ℚ := a - b * ⌊a / b⌋

/-- Python `round(q, 0)` (banker's rounding, half to even), composed with
`int(...)` which is exact on the integral result. -/
def pyRound (q : ℚ) : Int :=
  let f := ⌊q⌋
  let r := q - f
  if r < 1/2 then f
  else if r > 1/2 then f + 1
  else if f % 2 = 0 then f else f + 1

/-- The Python `str` rendering of a boolean. -/
def pyBoolStr (b : Bool) : String := if b then ("True") else ("False")

/-- Modelled from the spec: `celsius_to_fahrenheit` is imported from the
external `cedargrove_temperaturetools` library (not under src/); spec 4.1
gives `f = c * 9/5 + 32` with no error case. -/
def celsius_to_fahrenheit (c : ℚ) : ℚ := c * 9 / 5 + 32

/-- Compass label, `wind_direction` from code.py lines 55-58.  `heading is None` yields
`"--"`; otherwise the compass list is indexed by
`int(((heading + 22.5) % 360) / 45)`.  The `%` result lies in `[0, 360)`,
so the quotient is nonnegative and Python `int()` truncation agrees with
the floor. -/
def wind_direction (heading : Option ℚ) : String :=
  match heading with
  | none => "--"
  | some h =>
      ["N", "NE", "E", "SE", "S", "SW", "W", "NW"].getD
        (Int.toNat ⌊pymod (h + 45/2) 360 / 45⌋) ""

/-- One decoded weather observation (inbound payload schema, spec 3 / 6).
Structural equality, as for the Python dict held in `weather_data`. -/
structure Observation where
  conditionCode : String
  temperature : ℚ
  humidity : ℚ
  windSpeed : ℚ
  windGust : ℚ
  windDirection : Option ℚ
  readTime : String
  daylight : Bool
deriving DecidableEq, Repr

/-- A value handed to `aio.publish` (integer, float or string). -/
inductive AioValue where
  | intVal (n : Int)
  | ratVal (q : ℚ)
  | strVal (s : String)
deriving DecidableEq, Repr

/-- Observable side effects of the program, in program order. -/
inductive Event where
  | pixel (color : Nat)
  | sleep (secs : ℚ)
  | ledOn
  | ledOff
  | serviceCall (maxSecs : Nat)
  | publishAttempt (feed : String) (value : AioValue)
  | publishSuccess (feed : String)
  | logPublishFailed (feed : String)
  | reconnectAttempt
  | logServiceFailed
  | logReconnectFailed
  | logFatal
  | logWaiting
  | logNewObservation
  | logNoDescription
  | logIcon (icon : String) (desc : String)
  | supervisorReload
deriving DecidableEq, Repr

/-- The `(feed, value)` pair of a publish-attempt event, if any. -/
def eventPub : Event → Option (String × AioValue)
  | Event.publishAttempt f v => some (f, v)
  | _ => none

/-- The `(feed, value)` pairs of the publish attempts in a trace. -/
def attempts (evts : List Event) : List (String × AioValue) :=
  evts.filterMap eventPub

/-- The feed names of the publish attempts in a trace. -/
def attemptedFeeds (evts : List Event) : List String :=
  (attempts evts).map Prod.fst

/-- The `supervisor.reload()` events of a trace (fatal-restart invocations). -/
def reloadEvents (evts : List Event) : List Event :=
  evts.filterMap fun e =>
    match e with
    | Event.supervisorReload => some Event.supervisorReload
    | _ => none

/-- The number of one-second heartbeat LED pulses in a trace. -/
def blinkTicks (evts : List Event) : Nat :=
  (evts.filterMap fun e =>
    match e with
    | Event.ledOn => some Unit.unit
    | _ => none).length

/-- The `busy(delay)` wait from code.py lines 92-100: pixel black, then for
`int(round(delay, 0))` ticks blink the LED on 0.05 s / off 0.95 s.
This is the heartbeat-wait blink primitive. -/
def busyEvents (delay : ℚ) : List Event :=
  Event.pixel 0x000000 ::
    (List.range (pyRound delay).toNat).flatMap
      (fun _ => [Event.ledOn, Event.sleep (1/20), Event.ledOff, Event.sleep (19/20)])

/-- The fatal-restart tail shared by every failure site (code.py lines
84-86, 113-115, 167-169): print the soft-reset notice, `time.sleep(60)`,
`supervisor.reload()`.  `supervisor.reload()` never returns. -/
def fatalRestart : List Event :=
  [Event.logFatal, Event.sleep 60, Event.supervisorReload]

/-- Icon/description lookup, code.py lines 192-201.  The repository's
`kit_to_map_icon` table (module `weatherkit_to_weathmap_icon`, not under
src/) is a parameter `tbl` mapping a condition code to
`(long_description, icon_base)`.  On a hit the icon is the base with
`"d"` or `"n"` appended by daylight; on a `KeyError` the handler sets
`icon = "99d"` (for either daylight value) and the unknown-description
string.  Returns `(icon, long_desc)`. -/
def iconAndDescription (tbl : String → Option (String × String))
    (code : String) (daylight : Bool) : String × String :=
  match tbl code with
  | some p => (if daylight then p.2 ++ "d" else p.2 ++ "n", p.1)
  | none => ("99d", "unknown description: " ++ code)

/-- Trace of the lookup's log lines: the `KeyError` handler prints a
"NO Description" notice on a miss (code.py line 199). -/
def lookupEvents (tbl : String → Option (String × String)) (code : String) :
    List Event :=
  match tbl code with
  | some _ => []
  | none => [Event.logNoDescription]

/-- Environment of one steady-loop cycle: outcomes of the external calls. -/
structure Env where
  /-- Does `aio.loop(10)` return normally? -/
  serviceOk : Bool
  /-- The weather message (if any) delivered to the `message` callback
  during `aio.loop(10)`; delivery replaces `weather_data` wholesale. -/
  delivered : Option Observation
  /-- Does `aio.connect()` in the loop's failure handler succeed? -/
  reconnectOk : Bool
  /-- Does the k-th `aio.publish` of this cycle succeed? -/
  pubOk : Nat → Bool
  /-- Does the `aio.reconnect()` after the k-th failed publish succeed? -/
  pubReconnectOk : Nat → Bool
  /-- `time.monotonic()` at the watchdog publish. -/
  monotonic : ℚ
  /-- The `kit_to_map_icon` lookup table. -/
  tbl : String → Option (String × String)

/-- Module-level mutable state of the loop (code.py lines 146-147). -/
structure LoopState where
  weather_data : Option Observation
  weather_data_old : Option Observation
deriving DecidableEq, Repr

/-- Model of `publish_to_aio(value, feed)`, code.py lines 61-89, with the
outcomes of `aio.publish` / `aio.reconnect` supplied as `pubOk` /
`reconOk`.  Returns the trace and whether the fatal-restart path ran
(in which case `supervisor.reload()` never returns). -/
def publish_to_aio (pubOk reconOk : Bool) (value : Option AioValue)
    (feed : String) : List Event × Bool :=
  match value with
  | some v =>
      let pre := [Event.sleep (5/2), Event.publishAttempt feed v]
      if pubOk then
        (pre ++ [Event.pixel 0x00FF00, Event.publishSuccess feed], false)
      else
        let failEvts := pre ++
          [Event.pixel 0xFF0000, Event.logPublishFailed feed, Event.reconnectAttempt]
        if reconOk then
          (failEvts ++ [Event.pixel 0x00FF00], false)
        else
          (failEvts ++ [Event.pixel 0xFF0000, Event.logReconnectFailed] ++
            fatalRestart, true)
  | none => ([Event.logPublishFailed feed], false)

/-- The eight `(value, feed)` pairs published in the changed branch,
in source order (code.py lines 205-212). -/
def publishList (env : Env) (o : Observation) : List (Option AioValue × String) :=
  [ (some (AioValue.intVal (pyRound (env.monotonic / 60))), "system-watchdog"),
    (some (AioValue.strVal o.conditionCode), "weather-description"),
    (some (AioValue.ratVal (o.humidity * 100)), "weather-humidity"),
    (some (AioValue.ratVal (celsius_to_fahrenheit o.temperature)), "weather-temperature"),
    (some (AioValue.strVal (wind_direction o.windDirection)), "weather-winddirection"),
    (some (AioValue.ratVal (o.windGust * (6214/10000))), "weather-windgusts"),
    (some (AioValue.ratVal (o.windSpeed * (6214/10000))), "weather-windspeed"),
    (some (AioValue.strVal (pyBoolStr o.daylight)), "weather-daylight") ]

/-- Run the publish calls in order, numbering them from `k`; a fatal
publish (failed publish and failed reconnect) ends the cycle. -/
def runPublishes (pubOk reconOk : Nat → Bool) (k : Nat) :
    List (Option AioValue × String) → List Event × Bool
  | [] => ([], false)
  | p :: rest =>
      let r := publish_to_aio (pubOk k) (reconOk k) p.1 p.2
      if r.2 then (r.1, true)
      else
        let r2 := runPublishes pubOk reconOk (k + 1) rest
        (r.1 ++ r2.1, r2.2)

/-- The fetch-and-update phase of one cycle (code.py lines 150-169):
pixel yellow, pre-service throttle sleep, `aio.loop(10)` (delivering
`env.delivered` to the `message` callback, which overwrites
`weather_data`).  On failure: pixel red, log, sleep 10, `aio.connect()`;
a failed reconnect runs the fatal-restart tail (`none` state). -/
def serviceStep (env : Env) (s : LoopState) : List Event × Option LoopState :=
  let s1 : LoopState :=
    { s with weather_data := env.delivered <|> s.weather_data }
  let pre := [Event.pixel 0xFFFF00, Event.sleep (5/2), Event.serviceCall 10]
  if env.serviceOk then
    (pre ++ [Event.pixel 0x00FF00], some s1)
  else
    let failEvts := pre ++
      [Event.pixel 0xFF0000, Event.logServiceFailed, Event.sleep 10,
       Event.reconnectAttempt]
    if env.reconnectOk then
      (failEvts ++ [Event.pixel 0x00FF00], some s1)
    else
      (failEvts ++ [Event.pixel 0xFF0000, Event.logReconnectFailed] ++
        fatalRestart, none)

/-- The observation-processing phase of one cycle (code.py lines
171-218).  `if weather_data:` is truthiness of the decoded dict; a
decoded Observation is a nonempty dict, so this is `isSome` here.  In the
changed branch the derived values are computed, the icon lookup runs
(log-only: `icon`/`long_desc` are printed, never published; the
timestamp prints of lines 183-190 are summarised as one log event), the
eight publishes run, and `weather_data_old` is overwritten; then
`busy(120)`.  The unchanged branch only waits `busy(120)`; the unset
branch logs and waits `busy(10)`. -/
def processStep (env : Env) (s : LoopState) : List Event × Option LoopState :=
  match s.weather_data with
  | some o =>
      if s.weather_data ≠ s.weather_data_old then
        let iconDesc := iconAndDescription env.tbl o.conditionCode o.daylight
        let header := Event.logNewObservation ::
          lookupEvents env.tbl o.conditionCode ++
          [Event.logIcon iconDesc.1 iconDesc.2]
        let r := runPublishes env.pubOk env.pubReconnectOk 0 (publishList env o)
        if r.2 then (header ++ r.1, none)
        else
          (header ++ r.1 ++ busyEvents 120,
           some { weather_data := s.weather_data, weather_data_old := s.weather_data })
      else (busyEvents 120, some s)
  | none => (Event.logWaiting :: busyEvents 10, some s)

/-- One full iteration of `while True` (code.py lines 149-218). -/
def runCycle (env : Env) (s : LoopState) : List Event × Option LoopState :=
  let p := serviceStep env s
  match p.2 with
  | none => p
  | some s1 =>
      let q := processStep env s1
      (p.1 ++ q.1, q.2)

lemma attempts_nil : attempts [] = [] := rfl

lemma attempts_cons (e : Event) (l : List Event) :
    attempts (e :: l) = (eventPub e).toList ++ attempts l := by
  cases he : eventPub e <;> simp [attempts, List.filterMap_cons, he]

lemma attempts_append (a b : List Event) :
    attempts (a ++ b) = attempts a ++ attempts b := by
  simp [attempts, List.filterMap_append]

lemma attempts_busyEvents (d : ℚ) : attempts (busyEvents d) = [] := by
  unfold busyEvents
  generalize (pyRound d).toNat = n
  induction n with
  | zero => rfl
  | succ n ih =>
      rw [List.range_succ, List.flatMap_append]
      simp only [List.flatMap_cons, List.flatMap_nil] at ih ⊢
      simp only [attempts_cons, attempts_append, eventPub] at ih ⊢
      simp only [Option.toList, List.nil_append] at ih ⊢
      simp only [attempts_nil, List.append_nil]
      simpa using ih

lemma attempts_lookupEvents (tbl : String → Option (String × String)) (c : String) :
    attempts (lookupEvents tbl c) = [] := by
  unfold lookupEvents
  cases tbl c <;> rfl

lemma runPublishes_safe (pubOk reconOk : Nat → Bool)
    (h : ∀ j, pubOk j = false → reconOk j = true) :
    ∀ (l : List (Option AioValue × String)) (k : Nat),
      (runPublishes pubOk reconOk k l).2 = false ∧
      attempts (runPublishes pubOk reconOk k l).1 =
        l.filterMap (fun p => p.1.map fun v => (p.2, v)) := by
  intro l
  induction l with
  | nil => intro k; exact ⟨rfl, rfl⟩
  | cons p rest ih =>
      intro k
      obtain ⟨v, feed⟩ := p
      match v with
      | none =>
          simp only [runPublishes, publish_to_aio]
          have h2 := ih (k + 1)
          refine ⟨by simp [h2.1], ?_⟩
          simp [attempts_cons, attempts_append, attempts_nil, eventPub, h2.1, h2.2]
      | some v =>
          by_cases hp : pubOk k
          · simp only [runPublishes, publish_to_aio, hp, if_true]
            have h2 := ih (k + 1)
            refine ⟨by simp [h2.1], ?_⟩
            simp [attempts_cons, attempts_append, attempts_nil, eventPub, h2.1, h2.2]
          · have hb : pubOk k = false := by simpa using hp
            have hr := h k hb
            simp only [runPublishes, publish_to_aio, hb, hr, if_false, if_true,
              Bool.false_eq_true]
            have h2 := ih (k + 1)
            refine ⟨by simp [h2.1], ?_⟩
            simp [attempts_cons, attempts_append, attempts_nil, eventPub, h2.1, h2.2]

lemma serviceStep_ok (env : Env) (s : LoopState) (h : env.serviceOk = true) :
    serviceStep env s =
      ([Event.pixel 0xFFFF00, Event.sleep (5/2), Event.serviceCall 10,
        Event.pixel 0x00FF00],
       some { s with weather_data := env.delivered <|> s.weather_data }) := by
  simp [serviceStep, h]

lemma processStep_eq_branch (env : Env) (s : LoopState) (o : Observation)
    (h1 : s.weather_data = some o) (h2 : s.weather_data_old = some o) :
    processStep env s = (busyEvents 120, some s) := by
  obtain ⟨wd, wold⟩ := s
  simp only at h1 h2
  subst h1; subst h2
  simp [processStep]

lemma processStep_changed (env : Env) (s : LoopState) (o : Observation)
    (h1 : s.weather_data = some o) (h2 : s.weather_data ≠ s.weather_data_old)
    (hsafe : ∀ j, env.pubOk j = false → env.pubReconnectOk j = true) :
    (processStep env s).2 =
      some { weather_data := some o, weather_data_old := some o } ∧
    attempts (processStep env s).1 =
      (publishList env o).filterMap (fun p => p.1.map fun v => (p.2, v)) := by
  have hrp := runPublishes_safe env.pubOk env.pubReconnectOk hsafe (publishList env o) 0
  obtain ⟨wd, wold⟩ := s
  simp only at h1 h2
  subst h1
  simp only [processStep, ne_eq, h2, not_false_iff, if_true, hrp.1, if_false,
    Bool.false_eq_true]
  refine ⟨trivial, ?_⟩
  simp [attempts_cons, attempts_append, attempts_busyEvents, attempts_lookupEvents,
    eventPub, hrp.2]

lemma attempts_publishList (env : Env) (o : Observation) :
    (publishList env o).filterMap (fun p => p.1.map fun v => (p.2, v)) =
      [("system-watchdog", AioValue.intVal (pyRound (env.monotonic / 60))),
       ("weather-description", AioValue.strVal o.conditionCode),
       ("weather-humidity", AioValue.ratVal (o.humidity * 100)),
       ("weather-temperature", AioValue.ratVal (celsius_to_fahrenheit o.temperature)),
       ("weather-winddirection", AioValue.strVal (wind_direction o.windDirection)),
       ("weather-windgusts", AioValue.ratVal (o.windGust * (6214/10000))),
       ("weather-windspeed", AioValue.ratVal (o.windSpeed * (6214/10000))),
       ("weather-daylight", AioValue.strVal (pyBoolStr o.daylight))] := rfl

lemma pymod_add_right (a : ℚ) : pymod (a + 360) 360 = pymod a 360 := by
  unfold pymod
  rw [add_div, div_self (by norm_num : (360:ℚ) ≠ 0), Int.floor_add_one]
  push_cast
  ring

/-- Sample decoded observation used to witness the loop theorems. -/
def obs0 : Observation :=
  { conditionCode := "Clear", temperature := 20, humidity := 1/2,
    windSpeed := 5, windGust := 8, windDirection := some 90,
    readTime := "2024-01-01T12:00:00Z", daylight := true }

/-- An icon table with no entries (every lookup misses). -/
def tbl0 : String → Option (String × String) := fun _ => none

/-- Baseline environment: every external call succeeds, nothing delivered. -/
def envBase : Env :=
  { serviceOk := true, delivered := none, reconnectOk := true,
    pubOk := fun _ => true, pubReconnectOk := fun _ => true,
    monotonic := 7200, tbl := tbl0 }

/-- Environment where `aio.loop` fails and the reconnect succeeds. -/
def envSvcFail : Env := { envBase with serviceOk := false }

/-- Environment where `aio.loop` fails and the reconnect also fails. -/
def envFatal : Env := { envBase with serviceOk := false, reconnectOk := false }

/-- Environment where the third publish fails but its reconnect succeeds. -/
def envPubFail : Env := { envBase with pubOk := fun j => ! (j == 2) }

/-- C1: when the service (receive) call fails and the broker reconnect
succeeds, the cycle continues to the observation-processing step without
running the fatal-restart protocol, and the cached current observation is
unchanged by the failure-and-recovery path. -/
theorem service_fail_reconnect_ok_continues (env : Env) (s : LoopState)
    (hs : env.serviceOk = false) (hr : env.reconnectOk = true)
    (hd : env.delivered = none) :
    (serviceStep env s).2 = some s ∧
    reloadEvents (serviceStep env s).1 = [] ∧
    runCycle env s = ((serviceStep env s).1 ++ (processStep env s).1,
      (processStep env s).2) := by
  have h1 : serviceStep env s =
      ([Event.pixel 0xFFFF00, Event.sleep (5/2), Event.serviceCall 10,
        Event.pixel 0xFF0000, Event.logServiceFailed, Event.sleep 10,
        Event.reconnectAttempt, Event.pixel 0x00FF00], some s) := by
    simp [serviceStep, hs, hr, hd]
  refine ⟨by rw [h1], by rw [h1]; rfl, ?_⟩
  simp [runCycle, h1]

theorem service_fail_reconnect_ok_continues_witness :
    (serviceStep envSvcFail ⟨some obs0, none⟩).2 = some ⟨some obs0, none⟩ ∧
    reloadEvents (serviceStep envSvcFail ⟨some obs0, none⟩).1 = [] ∧
    runCycle envSvcFail ⟨some obs0, none⟩ =
      ((serviceStep envSvcFail ⟨some obs0, none⟩).1 ++
        (processStep envSvcFail ⟨some obs0, none⟩).1,
       (processStep envSvcFail ⟨some obs0, none⟩).2) :=
  service_fail_reconnect_ok_continues envSvcFail ⟨some obs0, none⟩ rfl rfl rfl

/-- C2: when the service call fails and the reconnect also fails, the
cycle runs the fatal-restart protocol exactly once (one
`supervisor.reload`) and attempts no publish. -/
theorem service_and_reconnect_fail_fatal_once (env : Env) (s : LoopState)
    (hs : env.serviceOk = false) (hr : env.reconnectOk = false) :
    (runCycle env s).2 = none ∧
    reloadEvents (runCycle env s).1 = [Event.supervisorReload] ∧
    attempts (runCycle env s).1 = [] := by
  have h1 : serviceStep env s =
      ([Event.pixel 0xFFFF00, Event.sleep (5/2), Event.serviceCall 10,
        Event.pixel 0xFF0000, Event.logServiceFailed, Event.sleep 10,
        Event.reconnectAttempt, Event.pixel 0xFF0000, Event.logReconnectFailed,
        Event.logFatal, Event.sleep 60, Event.supervisorReload], none) := by
    simp [serviceStep, hs, hr, fatalRestart]
  have h2 : runCycle env s = serviceStep env s := by
    simp [runCycle, h1]
  rw [h2, h1]
  exact ⟨rfl, rfl, rfl⟩

theorem service_and_reconnect_fail_fatal_once_witness :
    (runCycle envFatal ⟨some obs0, none⟩).2 = none ∧
    reloadEvents (runCycle envFatal ⟨some obs0, none⟩).1 =
      [Event.supervisorReload] ∧
    attempts (runCycle envFatal ⟨some obs0, none⟩).1 = [] :=
  service_and_reconnect_fail_fatal_once envFatal ⟨some obs0, none⟩ rfl rfl

/-- C3: when the cached current observation is set and structurally equal
to the committed previous observation, the cycle makes no publish call and
still performs the 120-second heartbeat wait. -/
theorem unchanged_observation_skips_publishes (env : Env) (s : LoopState)
    (o : Observation) (h1 : s.weather_data = some o)
    (h2 : s.weather_data_old = some o) :
    processStep env s = (busyEvents 120, some s) ∧
    attempts (processStep env s).1 = [] := by
  have h := processStep_eq_branch env s o h1 h2
  exact ⟨h, by rw [h]; exact attempts_busyEvents 120⟩

theorem unchanged_observation_skips_publishes_witness :
    processStep envBase ⟨some obs0, some obs0⟩ =
      (busyEvents 120, some ⟨some obs0, some obs0⟩) ∧
    attempts (processStep envBase ⟨some obs0, some obs0⟩).1 = [] :=
  unchanged_observation_skips_publishes envBase ⟨some obs0, some obs0⟩ obs0 rfl rfl

/-- C4: in a publishing cycle where every failed publish is followed by a
successful reconnect, each of the eight feeds receives exactly one publish
attempt, in the fixed order; in particular a failed value is not retried
and processing continues with the next value. -/
theorem failed_publish_reconnect_ok_not_retried (env : Env) (s : LoopState)
    (o : Observation) (h1 : s.weather_data = some o)
    (h2 : s.weather_data ≠ s.weather_data_old)
    (hsafe : ∀ j, env.pubOk j = false → env.pubReconnectOk j = true) :
    (processStep env s).2 =
      some { weather_data := some o, weather_data_old := some o } ∧
    attemptedFeeds (processStep env s).1 =
      ["system-watchdog", "weather-description", "weather-humidity",
       "weather-temperature", "weather-winddirection", "weather-windgusts",
       "weather-windspeed", "weather-daylight"] := by
  have h := processStep_changed env s o h1 h2 hsafe
  refine ⟨h.1, ?_⟩
  unfold attemptedFeeds
  rw [h.2, attempts_publishList]
  rfl

theorem failed_publish_reconnect_ok_not_retried_witness :
    (processStep envPubFail ⟨some obs0, none⟩).2 =
      some { weather_data := some obs0, weather_data_old := some obs0 } ∧
    attemptedFeeds (processStep envPubFail ⟨some obs0, none⟩).1 =
      ["system-watchdog", "weather-description", "weather-humidity",
       "weather-temperature", "weather-winddirection", "weather-windgusts",
       "weather-windspeed", "weather-daylight"] :=
  failed_publish_reconnect_ok_not_retried envPubFail ⟨some obs0, none⟩ obs0
    rfl (by simp) (fun _ _ => rfl)

/-- C5: `publish_to_aio` with an absent (None) value logs the failure,
makes no publish attempt, and returns normally (no fatal path, no
exception). -/
theorem publish_none_value_no_publish_no_raise (pubOk reconOk : Bool)
    (feed : String) :
    publish_to_aio pubOk reconOk none feed =
      ([Event.logPublishFailed feed], false) ∧
    attempts (publish_to_aio pubOk reconOk none feed).1 = [] :=
  ⟨rfl, rfl⟩

/-- C6: in a publishing cycle (no fatal publish), the publish attempts are
exactly the eight fixed feeds with their derived values, in source order:
watchdog minutes, condition code, humidity percent, temperature in
Fahrenheit, compass label, wind gust mph, wind speed mph, daylight
string; no other publish is interleaved. -/
theorem publish_sequence_fixed_order (env : Env) (s : LoopState)
    (o : Observation) (h1 : s.weather_data = some o)
    (h2 : s.weather_data ≠ s.weather_data_old)
    (hsafe : ∀ j, env.pubOk j = false → env.pubReconnectOk j = true) :
    attempts (processStep env s).1 =
      [("system-watchdog", AioValue.intVal (pyRound (env.monotonic / 60))),
       ("weather-description", AioValue.strVal o.conditionCode),
       ("weather-humidity", AioValue.ratVal (o.humidity * 100)),
       ("weather-temperature", AioValue.ratVal (celsius_to_fahrenheit o.temperature)),
       ("weather-winddirection", AioValue.strVal (wind_direction o.windDirection)),
       ("weather-windgusts", AioValue.ratVal (o.windGust * (6214/10000))),
       ("weather-windspeed", AioValue.ratVal (o.windSpeed * (6214/10000))),
       ("weather-daylight", AioValue.strVal (pyBoolStr o.daylight))] := by
  rw [(processStep_changed env s o h1 h2 hsafe).2, attempts_publishList]

theorem publish_sequence_fixed_order_witness :
    attempts (processStep envBase ⟨some obs0, none⟩).1 =
      [("system-watchdog", AioValue.intVal (pyRound (envBase.monotonic / 60))),
       ("weather-description", AioValue.strVal obs0.conditionCode),
       ("weather-humidity", AioValue.ratVal (obs0.humidity * 100)),
       ("weather-temperature", AioValue.ratVal (celsius_to_fahrenheit obs0.temperature)),
       ("weather-winddirection", AioValue.strVal (wind_direction obs0.windDirection)),
       ("weather-windgusts", AioValue.ratVal (obs0.windGust * (6214/10000))),
       ("weather-windspeed", AioValue.ratVal (obs0.windSpeed * (6214/10000))),
       ("weather-daylight", AioValue.strVal (pyBoolStr obs0.daylight))] :=
  publish_sequence_fixed_order envBase ⟨some obs0, none⟩ obs0
    rfl (by simp) (fun _ _ => rfl)

/-- C7 counterexample: on a lookup miss with `daylight = false` the code
returns icon `"99d"` (the `KeyError` handler sets `icon = "99d"`
unconditionally), not the `"99n"` the claim requires. -/
theorem unknown_code_night_icon_cex :
    (iconAndDescription tbl0 ("Xyz") false).1 = "99d" ∧
    (iconAndDescription tbl0 ("Xyz") false).1 ≠ "99n" :=
  ⟨rfl, by decide⟩

/-- C7 amended: for every condition code not in the lookup table and
either daylight flag, the lookup returns icon `"99d"` and description
`"unknown description: <code>"`, and (being a total function) never
raises to the enclosing loop. -/
theorem unknown_code_lookup_amended (tbl : String → Option (String × String))
    (code : String) (daylight : Bool) (h : tbl code = none) :
    iconAndDescription tbl code daylight =
      ("99d", "unknown description: " ++ code) := by
  unfold iconAndDescription
  rw [h]

theorem unknown_code_lookup_amended_witness :
    iconAndDescription tbl0 ("Xyz") true =
      ("99d", "unknown description: " ++ "Xyz") :=
  unknown_code_lookup_amended tbl0 ("Xyz") true rfl

/-- C8 counterexample: a fatal cycle (service failure, reconnect failure)
contains zero one-second heartbeat LED pulses, while the heartbeat-wait
blink primitive run for 60 seconds produces 60 pulses: the fatal 60-second
wait is a plain sleep, not the blink primitive the claim names. -/
theorem fatal_wait_no_blink_cex :
    (runCycle envFatal ⟨some obs0, none⟩).2 = none ∧
    blinkTicks (runCycle envFatal ⟨some obs0, none⟩).1 = 0 ∧
    blinkTicks (busyEvents 60) = 60 := by
  refine ⟨rfl, rfl, ?_⟩
  have h : pyRound (60:ℚ) = 60 := by norm_num [pyRound]
  simp only [busyEvents, h]
  decide

/-- C8 amended: whenever the fatal-restart protocol runs (loop-level or
publish-level failure site), it logs, performs a plain blocking
60-second sleep (no heartbeat blink ticks anywhere in the cycle), then
`supervisor.reload()` (a soft restart preserving the attached terminal
session) as the final event: nothing follows it. -/
theorem fatal_restart_plain_sleep (env : Env) (s : LoopState)
    (hs : env.serviceOk = false) (hr : env.reconnectOk = false) :
    (runCycle env s).1 =
      [Event.pixel 0xFFFF00, Event.sleep (5/2), Event.serviceCall 10,
       Event.pixel 0xFF0000, Event.logServiceFailed, Event.sleep 10,
       Event.reconnectAttempt, Event.pixel 0xFF0000, Event.logReconnectFailed,
       Event.logFatal, Event.sleep 60, Event.supervisorReload] ∧
    (runCycle env s).2 = none ∧
    blinkTicks (runCycle env s).1 = 0 ∧
    (∀ (v : AioValue) (feed : String),
      publish_to_aio false false (some v) feed =
        ([Event.sleep (5/2), Event.publishAttempt feed v, Event.pixel 0xFF0000,
          Event.logPublishFailed feed, Event.reconnectAttempt,
          Event.pixel 0xFF0000, Event.logReconnectFailed,
          Event.logFatal, Event.sleep 60, Event.supervisorReload], true)) := by
  have h1 : serviceStep env s =
      ([Event.pixel 0xFFFF00, Event.sleep (5/2), Event.serviceCall 10,
        Event.pixel 0xFF0000, Event.logServiceFailed, Event.sleep 10,
        Event.reconnectAttempt, Event.pixel 0xFF0000, Event.logReconnectFailed,
        Event.logFatal, Event.sleep 60, Event.supervisorReload], none) := by
    simp [serviceStep, hs, hr, fatalRestart]
  have h2 : runCycle env s = serviceStep env s := by
    simp [runCycle, h1]
  rw [h2, h1]
  refine ⟨rfl, rfl, rfl, ?_⟩
  intro v feed
  simp [publish_to_aio, fatalRestart]

theorem fatal_restart_plain_sleep_witness :
    (runCycle envFatal ⟨none, none⟩).2 = none ∧
    blinkTicks (runCycle envFatal ⟨none, none⟩).1 = 0 ∧
    publish_to_aio false false (some (AioValue.intVal 1)) "weather-humidity" =
      ([Event.sleep (5/2), Event.publishAttempt ("weather-humidity") (AioValue.intVal 1),
        Event.pixel 0xFF0000, Event.logPublishFailed ("weather-humidity"),
        Event.reconnectAttempt, Event.pixel 0xFF0000, Event.logReconnectFailed,
        Event.logFatal, Event.sleep 60, Event.supervisorReload], true) := by
  have h := fatal_restart_plain_sleep envFatal ⟨none, none⟩ rfl rfl
  exact ⟨h.2.1, h.2.2.1, h.2.2.2 (AioValue.intVal 1) "weather-humidity"⟩

/-- C9: the compass label is invariant under adding 360 degrees to a
non-absent heading. -/
theorem compass_label_period_360 (h : ℚ) :
    wind_direction (some (h + 360)) = wind_direction (some h) := by
  simp only [wind_direction]
  rw [show h + 360 + 45/2 = h + 45/2 + 360 from by ring, pymod_add_right]

/-- C10: at the end of a changed-observation cycle that avoids the fatal
path (every failed publish reconnects successfully), the previous
observation is unconditionally overwritten with the current one; hence a
following cycle that delivers no new observation publishes nothing, so
the failed value is not re-sent. -/
theorem commit_overwrites_even_after_failed_publish
    (env env2 : Env) (s : LoopState) (o : Observation)
    (h1 : s.weather_data = some o) (h2 : s.weather_data ≠ s.weather_data_old)
    (hsafe : ∀ j, env.pubOk j = false → env.pubReconnectOk j = true)
    (h2svc : env2.serviceOk = true) (h2del : env2.delivered = none) :
    (processStep env s).2 =
      some { weather_data := some o, weather_data_old := some o } ∧
    attempts (runCycle env2
      { weather_data := some o, weather_data_old := some o }).1 = [] := by
  refine ⟨(processStep_changed env s o h1 h2 hsafe).1, ?_⟩
  have hsvc := serviceStep_ok env2 ⟨some o, some o⟩ h2svc
  rw [h2del] at hsvc
  simp only [Option.none_orElse] at hsvc
  have hps := processStep_eq_branch env2 ⟨some o, some o⟩ o rfl rfl
  simp [runCycle, hsvc, hps, attempts_append, attempts_busyEvents,
    attempts_cons, attempts_nil, eventPub]

theorem commit_overwrites_even_after_failed_publish_witness :
    (processStep envPubFail ⟨some obs0, none⟩).2 =
      some { weather_data := some obs0, weather_data_old := some obs0 } ∧
    attempts (runCycle envBase
      { weather_data := some obs0, weather_data_old := some obs0 }).1 = [] :=
  commit_overwrites_even_after_failed_publish envPubFail envBase
    ⟨some obs0, none⟩ obs0 rfl (by simp) (fun _ _ => rfl) rfl rfl
